import Mathlib

/-!
Shallow embedding of the AWS Athena hook
(airflow/providers/amazon/aws/hooks/athena.py).

The remote Athena service (the boto3 client obtained via get_conn) is modelled
as a record of functions, `AthenaService`; an exception raised by a remote call
is an `Except.error`.  Service responses are records with optional nested
fields, mirroring Python dictionary key lookups: a missing key on an extraction
path corresponds to `none`.  Logging and sleeping are I/O effects with no
influence on data flow and are not modelled.  For the polling loop, whose
successive status checks may observe different answers as the remote query
progresses, the per-attempt results of check_query_status are modelled as a
sequence indexed by the attempt number, and the unbounded while-loop is run on
explicit fuel: a `none` result means the loop has not exited within that much
fuel.
-/

/-- Kinds of Python exceptions that the embedded code can raise or propagate:
an error raised by a remote service call, a KeyError from a dictionary lookup,
the ValueError raised for an invalid execution id, and the RuntimeError
produced by a bare raise with no active exception. -/
inductive AthenaError where
  | serviceError (msg : String)
  | keyError
  | valueError
  | runtimeError
deriving DecidableEq, Repr

/-- The nested Status dictionary of a QueryExecution record; each key may be
missing. -/
structure QueryStatus where
  State : Option String
  StateChangeReason : Option String
deriving DecidableEq, Repr

/-- The nested ResultConfiguration dictionary of a QueryExecution record. -/
structure ResultConfigurationRecord where
  OutputLocation : Option String
deriving DecidableEq, Repr

/-- The QueryExecution dictionary inside a get_query_execution response. -/
structure QueryExecutionRecord where
  Status : Option QueryStatus
  ResultConfiguration : Option ResultConfigurationRecord
deriving DecidableEq, Repr

/-- A get_query_execution response dictionary.  `nonempty` models the Python
truthiness of the dictionary (a boto3 response can hold keys such as
ResponseMetadata even when QueryExecution is absent, so truthiness is
independent of the QueryExecution key). -/
structure ExecResponse where
  nonempty : Bool
  QueryExecution : Option QueryExecutionRecord
deriving DecidableEq, Repr

/-- The keyword arguments run_query passes to start_query_execution.
ClientRequestToken is `none` when the key is not put into the params dict. -/
structure StartQueryParams where
  QueryString : String
  QueryExecutionContext : List (String × String)
  ResultConfiguration : List (String × String)
  WorkGroup : String
  ClientRequestToken : Option String
deriving DecidableEq, Repr

/-- A start_query_execution response dictionary; the QueryExecutionId key may
be missing. -/
structure StartQueryResponse where
  QueryExecutionId : Option String
deriving DecidableEq, Repr

/-- The keyword arguments get_query_results passes to the client call of the
same name.  NextToken is `none` when the key is not put into the params dict. -/
structure GetResultsParams where
  QueryExecutionId : String
  MaxResults : Int
  NextToken : Option String
deriving DecidableEq, Repr

/-- The arguments get_query_results_paginator passes to paginate, flattening
the PaginationConfig dictionary whose three keys are always present (possibly
with value None). -/
structure PaginateParams where
  QueryExecutionId : String
  MaxItems : Option Int
  PageSize : Option Int
  StartingToken : Option String
deriving DecidableEq, Repr

/-- An opaque page of query results as returned by the remote service. -/
structure ResultPage where
  rows : List (List String)
deriving DecidableEq, Repr

/-- An opaque PageIterator as returned by paginate. -/
structure PageIterator where
  pages : List ResultPage
deriving DecidableEq, Repr

/-- The remote Athena service collaborator: one function per client call the
hook issues.  `paginate` stands for get_paginator followed by paginate, which
only builds a lazy iterator and raises nothing. -/
structure AthenaService where
  start_query_execution : StartQueryParams → Except AthenaError StartQueryResponse
  get_query_execution : String → Except AthenaError ExecResponse
  get_query_results : GetResultsParams → Except AthenaError ResultPage
  paginate : PaginateParams → PageIterator

/-- AthenaHook.INTERMEDIATE_STATES. -/
def INTERMEDIATE_STATES : List String := ["QUEUED", "RUNNING"]

/-- AthenaHook.FAILURE_STATES. -/
def FAILURE_STATES : List String := ["FAILED", "CANCELLED"]

/-- AthenaHook.SUCCESS_STATES. -/
def SUCCESS_STATES : List String := ["SUCCEEDED"]

/-- AthenaHook.TERMINAL_STATES. -/
def TERMINAL_STATES : List String := ["SUCCEEDED", "FAILED", "CANCELLED"]

/-- Python truthiness of an optional string: None and the empty string are
falsy. -/
def strTruthy : Option String → Bool
  | none => false
  | some s => !s.isEmpty

/-- The extraction response[QueryExecution][Status][State]; `none` when any key
on the path is missing (the exception that check_query_status absorbs). -/
def extractState (r : ExecResponse) : Option String :=
  Option.bind (Option.bind r.QueryExecution (fun q => q.Status)) (fun st => st.State)

/-- The extraction response[QueryExecution][ResultConfiguration][OutputLocation]
used by get_output_location; `none` when any key on the path is missing. -/
def extractOutputLocation (r : ExecResponse) : Option String :=
  Option.bind (Option.bind r.QueryExecution (fun q => q.ResultConfiguration)) (fun c => c.OutputLocation)

/-- AthenaHook.check_query_status.  The get_query_execution call stands before
the try block in the source, so a failing fetch propagates; only the nested
field extraction is guarded, and its failure is logged and absorbed into
returning None. -/
def check_query_status (svc : AthenaService) (query_execution_id : String) :
    Except AthenaError (Option String) :=
  match svc.get_query_execution query_execution_id with
  | Except.error e => Except.error e
  | Except.ok response => Except.ok (extractState response)

/-- AthenaHook.run_query: the params dict sent to start_query_execution.
ClientRequestToken is added only when client_request_token is truthy. -/
def run_query_params (query : String) (query_context : List (String × String))
    (result_configuration : List (String × String))
    (client_request_token : Option String) (workgroup : String) : StartQueryParams :=
  StartQueryParams.mk query query_context result_configuration workgroup
    (if strTruthy client_request_token then client_request_token else none)

/-- AthenaHook.run_query: builds the params, sends them, and extracts
QueryExecutionId from the response; a missing key or a service error
propagates. -/
def run_query (svc : AthenaService) (query : String)
    (query_context : List (String × String))
    (result_configuration : List (String × String))
    (client_request_token : Option String) (workgroup : String) :
    Except AthenaError String :=
  match svc.start_query_execution
      (run_query_params query query_context result_configuration client_request_token workgroup) with
  | Except.error e => Except.error e
  | Except.ok response =>
    match response.QueryExecutionId with
    | some query_execution_id => Except.ok query_execution_id
    | none => Except.error AthenaError.keyError

/-- AthenaHook.get_query_results: re-checks the status (whose fetch failure
would propagate), returns None for a null state or a state in
INTERMEDIATE_STATES or FAILURE_STATES, and otherwise issues the remote result
fetch, adding NextToken only when next_token_id is truthy. -/
def get_query_results (svc : AthenaService) (query_execution_id : String)
    (next_token_id : Option String) (max_results : Int) :
    Except AthenaError (Option ResultPage) :=
  match check_query_status svc query_execution_id with
  | Except.error e => Except.error e
  | Except.ok none => Except.ok none
  | Except.ok (some query_state) =>
    if INTERMEDIATE_STATES.contains query_state || FAILURE_STATES.contains query_state then
      Except.ok none
    else
      match svc.get_query_results
          (GetResultsParams.mk query_execution_id max_results
            (if strTruthy next_token_id then next_token_id else none)) with
      | Except.error e => Except.error e
      | Except.ok page => Except.ok (some page)

/-- AthenaHook.get_query_results_paginator: same status gating as
get_query_results, then returns the paginator over the result pages. -/
def get_query_results_paginator (svc : AthenaService) (query_execution_id : String)
    (max_items : Option Int) (page_size : Option Int) (starting_token : Option String) :
    Except AthenaError (Option PageIterator) :=
  match check_query_status svc query_execution_id with
  | Except.error e => Except.error e
  | Except.ok none => Except.ok none
  | Except.ok (some query_state) =>
    if INTERMEDIATE_STATES.contains query_state || FAILURE_STATES.contains query_state then
      Except.ok none
    else
      Except.ok (some (svc.paginate
        (PaginateParams.mk query_execution_id max_items page_size starting_token)))

/-- The terminal test of the polling loop applied to a check_query_status
result: None is never terminal, a state is terminal when it lies in
TERMINAL_STATES. -/
def terminalHit : Option String → Bool
  | none => false
  | some s => TERMINAL_STATES.contains s

/-- The loop exit condition of poll_query_status, mirroring the Python test
max_polling_attempts and try_number >= max_polling_attempts: None and 0 are
falsy, so no budget and a zero budget never trigger it. -/
def budgetReached : Option Int → Nat → Bool
  | none, _ => false
  | some m, try_number => decide (m ≠ 0) && decide (m ≤ (try_number : Int))

/-- How the polling loop exited: with final_query_state set (carrying the
try_number at exit, which equals the number of status checks performed), or by
an exception propagating out of check_query_status. -/
inductive PollExit where
  | finalState (state : Option String) (checks : Nat)
  | raised (e : AthenaError) (checks : Nat)
deriving DecidableEq, Repr

/-- Body of AthenaHook.poll_query_status as a fuel-indexed recursion.
`checks k` is what self.check_query_status returns on the attempt with
try_number k+1 (the remote state may change between attempts).  `none` means
the loop has not exited within `fuel` iterations; the sleep between iterations
is not modelled. -/
def pollAux (checks : Nat → Except AthenaError (Option String))
    (max_polling_attempts : Option Int) : Nat → Nat → Option PollExit
  | _, 0 => none
  | try_number, fuel + 1 =>
    match checks (try_number - 1) with
    | Except.error e => some (PollExit.raised e try_number)
    | Except.ok query_state =>
      if terminalHit query_state then
        some (PollExit.finalState query_state try_number)
      else if budgetReached max_polling_attempts try_number then
        some (PollExit.finalState query_state try_number)
      else
        pollAux checks max_polling_attempts (try_number + 1) fuel

/-- AthenaHook.poll_query_status: the loop starts with try_number = 1. -/
def poll_query_status (checks : Nat → Except AthenaError (Option String))
    (max_polling_attempts : Option Int) (fuel : Nat) : Option PollExit :=
  pollAux checks max_polling_attempts 1 fuel

/-- AthenaHook.get_output_location.  An empty (falsy) execution id raises
ValueError before any remote call; a service error from the fetch propagates;
a falsy response triggers the bare raise (RuntimeError); a missing key on the
output-location path raises KeyError, which is logged and re-raised. -/
def get_output_location (svc : AthenaService) (query_execution_id : String) :
    Except AthenaError String :=
  if query_execution_id.isEmpty then
    Except.error AthenaError.valueError
  else
    match svc.get_query_execution query_execution_id with
    | Except.error e => Except.error e
    | Except.ok response =>
      if response.nonempty then
        match extractOutputLocation response with
        | some output_location => Except.ok output_location
        | none => Except.error AthenaError.keyError
      else
        Except.error AthenaError.runtimeError

/-- A service whose get_query_execution call raises on every invocation,
modelling a transport or service failure of the status fetch. -/
def svcFetchFails : AthenaService :=
  AthenaService.mk
    (fun _ => Except.error (AthenaError.serviceError "ConnectionError"))
    (fun _ => Except.error (AthenaError.serviceError "ConnectionError"))
    (fun _ => Except.error (AthenaError.serviceError "ConnectionError"))
    (fun _ => PageIterator.mk [])

/-- A service whose execution record is present but whose Status dictionary is
missing, so the status-field extraction fails. -/
def svcNoStatusField : AthenaService :=
  AthenaService.mk
    (fun _ => Except.ok (StartQueryResponse.mk none))
    (fun _ => Except.ok (ExecResponse.mk true (some (QueryExecutionRecord.mk none none))))
    (fun _ => Except.ok (ResultPage.mk []))
    (fun _ => PageIterator.mk [])

/-- C1, counterexample: the claim says check_query_status never raises even if
the remote fetch itself fails; but the fetch stands outside the try block, so
with a service whose fetch raises, the error propagates instead of null being
returned. -/
theorem check_query_status_fetch_error_raises :
    check_query_status svcFetchFails "q1" =
      Except.error (AthenaError.serviceError "ConnectionError") := rfl

/-- C1, amended: whenever the remote fetch succeeds, check_query_status never
raises: it returns the status field extracted from the record, which is null
exactly when the nested field is absent (that failure is logged and absorbed);
a failure of the fetch itself, however, propagates. -/
theorem check_query_status_absorbs_extraction (svc : AthenaService)
    (query_execution_id : String) (response : ExecResponse)
    (hfetch : svc.get_query_execution query_execution_id = Except.ok response) :
    check_query_status svc query_execution_id = Except.ok (extractState response) := by
  simp [check_query_status, hfetch]

/-- C1, witness: on a record whose Status dictionary is missing, the absorbed
extraction failure yields a null status rather than an exception. -/
theorem check_query_status_absorbs_extraction_witness :
    check_query_status svcNoStatusField "q1" = Except.ok none :=
  check_query_status_absorbs_extraction svcNoStatusField "q1"
    (ExecResponse.mk true (some (QueryExecutionRecord.mk none none))) rfl

/-- C6: with an empty (falsy) execution id, get_output_location fails with
ValueError; the result is the same for every service, so no remote call can
have been made. -/
theorem get_output_location_empty_id (svc : AthenaService) :
    get_output_location svc "" = Except.error AthenaError.valueError := rfl

/-- C7: when the record lookup succeeds with a truthy response but the
output-location field is missing from the record, get_output_location raises
KeyError (logged and re-raised, not absorbed into a null return). -/
theorem get_output_location_missing_field_raises (svc : AthenaService)
    (query_execution_id : String) (response : ExecResponse)
    (hid : query_execution_id.isEmpty = false)
    (hfetch : svc.get_query_execution query_execution_id = Except.ok response)
    (htruthy : response.nonempty = true)
    (hmissing : extractOutputLocation response = none) :
    get_output_location svc query_execution_id = Except.error AthenaError.keyError := by
  simp [get_output_location, hid, hfetch, htruthy, hmissing]

/-- A service whose execution record carries a status but no
ResultConfiguration dictionary, so the output-location extraction fails. -/
def svcNoOutputLocation : AthenaService :=
  AthenaService.mk
    (fun _ => Except.ok (StartQueryResponse.mk none))
    (fun _ => Except.ok (ExecResponse.mk true
      (some (QueryExecutionRecord.mk (some (QueryStatus.mk (some "SUCCEEDED") none)) none))))
    (fun _ => Except.ok (ResultPage.mk []))
    (fun _ => PageIterator.mk [])

/-- C7, witness: a concrete record with the output-location field missing makes
get_output_location raise KeyError. -/
theorem get_output_location_missing_field_raises_witness :
    get_output_location svcNoOutputLocation "qid7" = Except.error AthenaError.keyError :=
  get_output_location_missing_field_raises svcNoOutputLocation "qid7"
    (ExecResponse.mk true
      (some (QueryExecutionRecord.mk (some (QueryStatus.mk (some "SUCCEEDED") none)) none)))
    rfl rfl rfl rfl

/-- C8: run_query sends exactly the query text, query context, result
configuration and workgroup; the idempotency token appears in the request only
if it was the one provided; and the returned value is the QueryExecutionId
extracted from the service response. -/
theorem run_query_builds_request (svc : AthenaService) (query : String)
    (query_context result_configuration : List (String × String))
    (client_request_token : Option String) (workgroup : String)
    (response : StartQueryResponse) (qid : String)
    (hsend : svc.start_query_execution
        (run_query_params query query_context result_configuration client_request_token workgroup)
        = Except.ok response)
    (hqid : response.QueryExecutionId = some qid) :
    (run_query_params query query_context result_configuration client_request_token workgroup).QueryString = query ∧
    (run_query_params query query_context result_configuration client_request_token workgroup).QueryExecutionContext = query_context ∧
    (run_query_params query query_context result_configuration client_request_token workgroup).ResultConfiguration = result_configuration ∧
    (run_query_params query query_context result_configuration client_request_token workgroup).WorkGroup = workgroup ∧
    (∀ t, (run_query_params query query_context result_configuration client_request_token workgroup).ClientRequestToken = some t →
      client_request_token = some t) ∧
    run_query svc query query_context result_configuration client_request_token workgroup = Except.ok qid := by
  refine ⟨rfl, rfl, rfl, rfl, ?_, ?_⟩
  · intro t ht
    simp only [run_query_params] at ht
    split at ht
    · exact ht
    · exact Option.noConfusion ht
  · simp [run_query, hsend, hqid]

/-- A service that accepts every submission and answers with a fixed execution
id. -/
def svcStart : AthenaService :=
  AthenaService.mk
    (fun _ => Except.ok (StartQueryResponse.mk (some "exec-1")))
    (fun _ => Except.ok (ExecResponse.mk true none))
    (fun _ => Except.ok (ResultPage.mk []))
    (fun _ => PageIterator.mk [])

/-- C8, witness: a concrete submission whose request carries all four fields
and the provided token, and whose returned id is the one from the response. -/
theorem run_query_builds_request_witness :
    (run_query_params "SELECT 1" [("Database", "db")] [("OutputLocation", "s3p")] (some "tok-1") "primary").QueryString = "SELECT 1" ∧
    (run_query_params "SELECT 1" [("Database", "db")] [("OutputLocation", "s3p")] (some "tok-1") "primary").QueryExecutionContext = [("Database", "db")] ∧
    (run_query_params "SELECT 1" [("Database", "db")] [("OutputLocation", "s3p")] (some "tok-1") "primary").ResultConfiguration = [("OutputLocation", "s3p")] ∧
    (run_query_params "SELECT 1" [("Database", "db")] [("OutputLocation", "s3p")] (some "tok-1") "primary").WorkGroup = "primary" ∧
    (∀ t, (run_query_params "SELECT 1" [("Database", "db")] [("OutputLocation", "s3p")] (some "tok-1") "primary").ClientRequestToken = some t →
      (some "tok-1" : Option String) = some t) ∧
    run_query svcStart "SELECT 1" [("Database", "db")] [("OutputLocation", "s3p")] (some "tok-1") "primary" = Except.ok "exec-1" :=
  run_query_builds_request svcStart "SELECT 1" [("Database", "db")] [("OutputLocation", "s3p")]
    (some "tok-1") "primary" (StartQueryResponse.mk (some "exec-1")) "exec-1" rfl rfl

/-- A zero budget is Python-falsy, so the exit condition never fires. -/
theorem budgetReached_zero (try_number : Nat) :
    budgetReached (some 0) try_number = false := rfl

/-- Before the budget is reached, the exit condition is false. -/
theorem budgetReached_lt (N try_number : Nat) (h : try_number < N) :
    budgetReached (some (N : Int)) try_number = false := by
  have h2 : decide ((N : Int) ≤ (try_number : Int)) = false := by
    rw [decide_eq_false_iff_not]
    omega
  simp [budgetReached, h2]
  omega

/-- From the budgeted attempt on, the exit condition is true. -/
theorem budgetReached_ge (N try_number : Nat) (h0 : 0 < N) (h : N ≤ try_number) :
    budgetReached (some (N : Int)) try_number = true := by
  have h1 : decide ((N : Int) ≠ 0) = true := by
    rw [decide_eq_true_eq]
    omega
  have h2 : decide ((N : Int) ≤ (try_number : Int)) = true := by
    rw [decide_eq_true_eq]
    omega
  simp [budgetReached, h1, h2]
  omega

/-- Loop invariant behind C2: under a positive budget N, when every check up to
the Nth succeeds without a terminal state, the loop running from try_number t
exits at try_number N with the state of the Nth check. -/
theorem pollAux_budget_expiry (checks : Nat → Except AthenaError (Option String))
    (N : Nat) (hN : 0 < N)
    (hnt : ∀ k, k < N → ∃ s, checks k = Except.ok s ∧ terminalHit s = false) :
    ∀ fuel t, 0 < t → t ≤ N → N - t < fuel →
      ∃ sN, checks (N - 1) = Except.ok sN ∧
        pollAux checks (some (N : Int)) t fuel = some (PollExit.finalState sN N) := by
  intro fuel
  induction fuel with
  | zero => intro t _ _ hf; omega
  | succ f ih =>
    intro t ht htN hf
    obtain ⟨s, hs, hterm⟩ := hnt (t - 1) (by omega)
    by_cases hcase : t = N
    · subst hcase
      refine ⟨s, hs, ?_⟩
      simp only [pollAux]
      rw [hs]
      simp [hterm, budgetReached_ge t t ht (le_refl t)]
    · have hlt : t < N := by omega
      obtain ⟨sN, hsN, hrec⟩ := ih (t + 1) (by omega) (by omega) (by omega)
      refine ⟨sN, hsN, ?_⟩
      simp only [pollAux]
      rw [hs]
      simp [hterm, budgetReached_lt N t hlt]
      exact hrec

/-- C2: with a positive attempt budget N, if no terminal state is observed in
the first N status checks, poll_query_status performs exactly N checks and
returns the state of the Nth one, possibly null or intermediate. -/
theorem poll_query_status_budget_expiry (checks : Nat → Except AthenaError (Option String))
    (N fuel : Nat) (hN : 0 < N) (hfuel : N ≤ fuel)
    (hnt : ∀ k, k < N → ∃ s, checks k = Except.ok s ∧ terminalHit s = false) :
    ∃ sN, checks (N - 1) = Except.ok sN ∧
      poll_query_status checks (some (N : Int)) fuel = some (PollExit.finalState sN N) :=
  pollAux_budget_expiry checks N hN hnt fuel 1 (by omega) (by omega) (by omega)

/-- C2, witness: a query that always reports RUNNING under a budget of 2 gets
exactly 2 checks and RUNNING is returned. -/
theorem poll_query_status_budget_expiry_witness :
    ∃ sN, (fun _ => Except.ok (some "RUNNING") : Nat → Except AthenaError (Option String)) 1 =
        Except.ok sN ∧
      poll_query_status (fun _ => Except.ok (some "RUNNING")) (some 2) 2 =
        some (PollExit.finalState sN 2) :=
  poll_query_status_budget_expiry (fun _ => Except.ok (some "RUNNING")) 2 2
    (by omega) (by omega) (fun k _ => ⟨some "RUNNING", rfl, rfl⟩)

/-- Loop invariant behind C3: when the checks before index j are non-terminal,
the budget does not fire during them, and the check at index j yields a
terminal state, the loop running from try_number t exits at try_number j + 1
with that state. -/
theorem pollAux_first_terminal (checks : Nat → Except AthenaError (Option String))
    (max_polling_attempts : Option Int) (j : Nat) (s : String)
    (hnt : ∀ k, k < j → ∃ q, checks k = Except.ok q ∧ terminalHit q = false)
    (hbud : ∀ t, 0 < t → t ≤ j → budgetReached max_polling_attempts t = false)
    (hj : checks j = Except.ok (some s)) (hterm : terminalHit (some s) = true) :
    ∀ fuel t, 0 < t → t ≤ j + 1 → j + 1 - t < fuel →
      pollAux checks max_polling_attempts t fuel =
        some (PollExit.finalState (some s) (j + 1)) := by
  intro fuel
  induction fuel with
  | zero => intro t _ _ hf; omega
  | succ f ih =>
    intro t ht htj hf
    by_cases hcase : t = j + 1
    · subst hcase
      simp only [pollAux]
      rw [show j + 1 - 1 = j from rfl, hj]
      simp [hterm]
    · have hle : t ≤ j := by omega
      obtain ⟨q, hq, hqterm⟩ := hnt (t - 1) (by omega)
      simp only [pollAux]
      rw [hq]
      simp [hqterm, hbud t ht hle]
      exact ih (t + 1) (by omega) (by omega) (by omega)

/-- C3: when the polling loop exits because a terminal state was observed (the
first terminal observation happening on check j + 1, the budget not having
fired before), the returned state is SUCCEEDED, FAILED or CANCELLED and the
loop stops at exactly that check, with no further check. -/
theorem poll_query_status_terminal_exit (checks : Nat → Except AthenaError (Option String))
    (max_polling_attempts : Option Int) (j fuel : Nat) (s : String)
    (hnt : ∀ k, k < j → ∃ q, checks k = Except.ok q ∧ terminalHit q = false)
    (hbud : ∀ t, 0 < t → t ≤ j → budgetReached max_polling_attempts t = false)
    (hj : checks j = Except.ok (some s))
    (hterm : TERMINAL_STATES.contains s = true)
    (hfuel : j < fuel) :
    (s = "SUCCEEDED" ∨ s = "FAILED" ∨ s = "CANCELLED") ∧
      poll_query_status checks max_polling_attempts fuel =
        some (PollExit.finalState (some s) (j + 1)) := by
  constructor
  · have h := hterm
    simp [TERMINAL_STATES] at h
    exact h
  · exact pollAux_first_terminal checks max_polling_attempts j s hnt hbud hj hterm
      fuel 1 (by omega) (by omega) (by omega)

/-- The status sequence QUEUED, RUNNING, SUCCEEDED, then SUCCEEDED forever. -/
def checksQRS : Nat → Except AthenaError (Option String) :=
  fun k => Except.ok (some (List.getD ["QUEUED", "RUNNING", "SUCCEEDED"] k "SUCCEEDED"))

/-- C3, witness: on the sequence QUEUED, RUNNING, SUCCEEDED without a budget,
the loop returns SUCCEEDED after exactly 3 checks. -/
theorem poll_query_status_terminal_exit_witness :
    (("SUCCEEDED" : String) = "SUCCEEDED" ∨ ("SUCCEEDED" : String) = "FAILED" ∨
      ("SUCCEEDED" : String) = "CANCELLED") ∧
      poll_query_status checksQRS none 3 =
        some (PollExit.finalState (some "SUCCEEDED") 3) :=
  poll_query_status_terminal_exit checksQRS none 2 3 "SUCCEEDED"
    (fun k hk => by
      interval_cases k
      · exact ⟨some "QUEUED", rfl, rfl⟩
      · exact ⟨some "RUNNING", rfl, rfl⟩)
    (fun t _ _ => rfl) rfl rfl (by omega)

/-- Without a budget, any exit of the loop is either a terminal observation or
an exception from the status check. -/
theorem pollAux_none_exit (checks : Nat → Except AthenaError (Option String)) :
    ∀ fuel t res, pollAux checks none t fuel = some res →
      (∃ s n, res = PollExit.finalState (some s) n ∧
        (s = "SUCCEEDED" ∨ s = "FAILED" ∨ s = "CANCELLED")) ∨
      (∃ e n, res = PollExit.raised e n) := by
  intro fuel
  induction fuel with
  | zero => intro t res h; simp [pollAux] at h
  | succ f ih =>
    intro t res h
    simp only [pollAux] at h
    cases hc : checks (t - 1) with
    | error e =>
      rw [hc] at h
      simp at h
      right
      exact ⟨e, t, h.symm⟩
    | ok q =>
      rw [hc] at h
      by_cases hterm : terminalHit q = true
      · simp [hterm] at h
        cases q with
        | none => simp [terminalHit] at hterm
        | some s =>
          left
          refine ⟨s, t, h.symm, ?_⟩
          have h2 := hterm
          simp [terminalHit, TERMINAL_STATES] at h2
          exact h2
      · simp only [hterm, Bool.false_eq_true, if_false, budgetReached] at h
        exact ih (t + 1) res h

/-- Without a budget, while every check succeeds with a non-terminal state the
loop never exits. -/
theorem pollAux_none_no_terminal (checks : Nat → Except AthenaError (Option String))
    (hall : ∀ k, ∃ q, checks k = Except.ok q ∧ terminalHit q = false) :
    ∀ fuel t, pollAux checks none t fuel = none := by
  intro fuel
  induction fuel with
  | zero => intro t; rfl
  | succ f ih =>
    intro t
    obtain ⟨q, hq, hterm⟩ := hall (t - 1)
    simp only [pollAux]
    rw [hq]
    simp [hterm, budgetReached]
    exact ih (t + 1)

/-- C5, counterexample: the claim says that without a budget the loop has no
exit path other than observing a terminal state; but a failing status fetch
propagates out of check_query_status and exits the loop on the very first
attempt, no terminal state having been observed. -/
theorem poll_query_status_raises_on_fetch_error :
    poll_query_status (fun _ => Except.error (AthenaError.serviceError "ConnectionError")) none 5 =
      some (PollExit.raised (AthenaError.serviceError "ConnectionError") 1) := rfl

/-- C5, amended: without a budget the loop never returns null or an
intermediate state: it exits either with a terminal state (SUCCEEDED, FAILED or
CANCELLED) or by a status-fetch exception propagating; and while every check
succeeds with a non-terminal (or null) state, it keeps checking forever. -/
theorem poll_query_status_unbounded (checks : Nat → Except AthenaError (Option String)) :
    (∀ fuel res, poll_query_status checks none fuel = some res →
      (∃ s n, res = PollExit.finalState (some s) n ∧
        (s = "SUCCEEDED" ∨ s = "FAILED" ∨ s = "CANCELLED")) ∨
      (∃ e n, res = PollExit.raised e n)) ∧
    ((∀ k, ∃ q, checks k = Except.ok q ∧ terminalHit q = false) →
      ∀ fuel, poll_query_status checks none fuel = none) :=
  ⟨fun fuel res h => pollAux_none_exit checks fuel 1 res h,
   fun hall fuel => pollAux_none_no_terminal checks hall fuel 1⟩

/-- C5, witness: a loop that exits does so on a terminal state, and a loop fed
only RUNNING answers never exits. -/
theorem poll_query_status_unbounded_witness :
    ((∃ s n, PollExit.finalState (some "SUCCEEDED") 1 = PollExit.finalState (some s) n ∧
        (s = "SUCCEEDED" ∨ s = "FAILED" ∨ s = "CANCELLED")) ∨
      (∃ e n, PollExit.finalState (some "SUCCEEDED") 1 = PollExit.raised e n)) ∧
    poll_query_status (fun _ => Except.ok (some "RUNNING")) none 7 = none :=
  ⟨(poll_query_status_unbounded (fun _ => Except.ok (some "SUCCEEDED"))).1 1
      (PollExit.finalState (some "SUCCEEDED") 1) rfl,
   (poll_query_status_unbounded (fun _ => Except.ok (some "RUNNING"))).2
      (fun _ => ⟨some "RUNNING", rfl, rfl⟩) 7⟩

/-- A zero budget makes the loop behave exactly like no budget, from any
try_number. -/
theorem pollAux_zero_budget (checks : Nat → Except AthenaError (Option String)) :
    ∀ fuel t, pollAux checks (some 0) t fuel = pollAux checks none t fuel := by
  intro fuel
  induction fuel with
  | zero => intro t; rfl
  | succ f ih =>
    intro t
    simp only [pollAux]
    cases checks (t - 1) with
    | error e => rfl
    | ok q =>
      by_cases hterm : terminalHit q = true
      · simp [hterm]
      · simp [hterm, budgetReached_zero, budgetReached]
        exact ih (t + 1)

/-- C9: calling poll_query_status with max_polling_attempts = 0 behaves
exactly as calling it with no budget at all, since 0 is falsy in the budget
test: the loop runs unbounded instead of exiting after zero attempts. -/
theorem poll_query_status_zero_budget_unbounded
    (checks : Nat → Except AthenaError (Option String)) (fuel : Nat) :
    poll_query_status checks (some 0) fuel = poll_query_status checks none fuel :=
  pollAux_zero_budget checks fuel 1

/-- A service reporting the unrecognized state UNKNOWN, with a distinguishable
result page. -/
def svcUnknownState : AthenaService :=
  AthenaService.mk
    (fun _ => Except.ok (StartQueryResponse.mk none))
    (fun _ => Except.ok (ExecResponse.mk true
      (some (QueryExecutionRecord.mk (some (QueryStatus.mk (some "UNKNOWN") none)) none))))
    (fun _ => Except.ok (ResultPage.mk [["r1c1"]]))
    (fun _ => PageIterator.mk [ResultPage.mk [["r1c1"]]])

/-- C4, counterexample: the claim says the remote result fetch is attempted
only when the status is SUCCEEDED; but on the unrecognized status UNKNOWN,
which is not SUCCEEDED, get_query_results attempts the fetch and returns its
page. -/
theorem get_query_results_fetches_unknown_state :
    check_query_status svcUnknownState "q1" = Except.ok (some "UNKNOWN") ∧
    ("UNKNOWN" : String) ≠ "SUCCEEDED" ∧
    get_query_results svcUnknownState "q1" none 1000 =
      Except.ok (some (ResultPage.mk [["r1c1"]])) :=
  ⟨rfl, by decide, rfl⟩

/-- C4, amended: get_query_results returns no-result whenever the re-checked
status is null or one of QUEUED, RUNNING, FAILED, CANCELLED; for SUCCEEDED it
attempts the remote result fetch and returns its outcome (as it also does for
any other non-null status outside that list). -/
theorem get_query_results_gating (svc : AthenaService) (query_execution_id : String)
    (next_token_id : Option String) (max_results : Int) :
    (check_query_status svc query_execution_id = Except.ok none →
      get_query_results svc query_execution_id next_token_id max_results = Except.ok none) ∧
    (∀ s, check_query_status svc query_execution_id = Except.ok (some s) →
      s ∈ ["QUEUED", "RUNNING", "FAILED", "CANCELLED"] →
      get_query_results svc query_execution_id next_token_id max_results = Except.ok none) ∧
    (check_query_status svc query_execution_id = Except.ok (some "SUCCEEDED") →
      get_query_results svc query_execution_id next_token_id max_results =
        Except.map some (svc.get_query_results (GetResultsParams.mk query_execution_id
          max_results (if strTruthy next_token_id then next_token_id else none)))) := by
  refine ⟨?_, ?_, ?_⟩
  · intro h
    simp [get_query_results, h]
  · intro s h hmem
    have hc : (INTERMEDIATE_STATES.contains s || FAILURE_STATES.contains s) = true := by
      fin_cases hmem <;> rfl
    simp only [get_query_results, h]
    rw [hc]
    simp
  · intro h
    have hc : (INTERMEDIATE_STATES.contains "SUCCEEDED" ||
        FAILURE_STATES.contains "SUCCEEDED") = false := rfl
    simp only [get_query_results, h, hc, Bool.false_eq_true, if_false]
    cases hres : svc.get_query_results (GetResultsParams.mk query_execution_id
        max_results (if strTruthy next_token_id then next_token_id else none)) with
    | error e => simp [hres, Except.map]
    | ok page => simp [hres, Except.map]

/-- A service whose query is in the FAILED state. -/
def svcFailed : AthenaService :=
  AthenaService.mk
    (fun _ => Except.ok (StartQueryResponse.mk none))
    (fun _ => Except.ok (ExecResponse.mk true
      (some (QueryExecutionRecord.mk (some (QueryStatus.mk (some "FAILED") none)) none))))
    (fun _ => Except.ok (ResultPage.mk [["r1c1"]]))
    (fun _ => PageIterator.mk [ResultPage.mk [["r1c1"]]])

/-- A service whose query has SUCCEEDED. -/
def svcSucceeded : AthenaService :=
  AthenaService.mk
    (fun _ => Except.ok (StartQueryResponse.mk none))
    (fun _ => Except.ok (ExecResponse.mk true
      (some (QueryExecutionRecord.mk (some (QueryStatus.mk (some "SUCCEEDED") none))
        (some (ResultConfigurationRecord.mk (some "s3-bucket-path")))))))
    (fun _ => Except.ok (ResultPage.mk [["r1c1"]]))
    (fun _ => PageIterator.mk [ResultPage.mk [["r1c1"]]])

/-- C4, witness: no-result on a null status and on FAILED, and the fetched page
on SUCCEEDED. -/
theorem get_query_results_gating_witness :
    get_query_results svcNoStatusField "q1" none 1000 = Except.ok none ∧
    get_query_results svcFailed "q1" none 1000 = Except.ok none ∧
    get_query_results svcSucceeded "q1" none 1000 =
      Except.map some (svcSucceeded.get_query_results (GetResultsParams.mk "q1" 1000 none)) :=
  ⟨(get_query_results_gating svcNoStatusField "q1" none 1000).1 rfl,
   (get_query_results_gating svcFailed "q1" none 1000).2.1 "FAILED" rfl (by decide),
   (get_query_results_gating svcSucceeded "q1" none 1000).2.2 rfl⟩

/-- C10: the success gating is by exclusion: for any non-null status outside
QUEUED, RUNNING, FAILED, CANCELLED (not only SUCCEEDED), get_query_results
attempts the remote fetch and get_query_results_paginator builds and returns
the paginator. -/
theorem results_gating_by_exclusion (svc : AthenaService) (query_execution_id : String)
    (next_token_id : Option String) (max_results : Int)
    (max_items page_size : Option Int) (starting_token : Option String) (s : String)
    (hcheck : check_query_status svc query_execution_id = Except.ok (some s))
    (hnot : s ∉ ["QUEUED", "RUNNING", "FAILED", "CANCELLED"]) :
    get_query_results svc query_execution_id next_token_id max_results =
      Except.map some (svc.get_query_results (GetResultsParams.mk query_execution_id
        max_results (if strTruthy next_token_id then next_token_id else none))) ∧
    get_query_results_paginator svc query_execution_id max_items page_size starting_token =
      Except.ok (some (svc.paginate
        (PaginateParams.mk query_execution_id max_items page_size starting_token))) := by
  have hc : (INTERMEDIATE_STATES.contains s || FAILURE_STATES.contains s) = false := by
    simp at hnot
    simp [INTERMEDIATE_STATES, FAILURE_STATES]
    tauto
  constructor
  · simp only [get_query_results, hcheck, hc, Bool.false_eq_true, if_false]
    cases hres : svc.get_query_results (GetResultsParams.mk query_execution_id
        max_results (if strTruthy next_token_id then next_token_id else none)) with
    | error e => simp [hres, Except.map]
    | ok page => simp [hres, Except.map]
  · simp only [get_query_results_paginator, hcheck]
    rw [hc]
    simp

/-- C10, witness: on the unrecognized status UNKNOWN both operations attempt
the fetch. -/
theorem results_gating_by_exclusion_witness :
    get_query_results svcUnknownState "q1" none 1000 =
      Except.map some (svcUnknownState.get_query_results (GetResultsParams.mk "q1" 1000 none)) ∧
    get_query_results_paginator svcUnknownState "q1" none none none =
      Except.ok (some (svcUnknownState.paginate (PaginateParams.mk "q1" none none none))) :=
  results_gating_by_exclusion svcUnknownState "q1" none 1000 none none none "UNKNOWN"
    rfl (by decide)
